import Mathlib

/-!
# Verification of the packet decoding core of `hybrid-engine-ui`

Shallow embedding of `src/packet_spec.py`: the enum types, the dataclass
shapes, `parse_packet_header`, `packet_message_bytes_length`,
`parse_packet_message` and `parse_serial_packet`, together with theorems
settling the specification claims about them.

Python conventions used by the embedding:
* `bytes` inputs become `List Nat` (one entry per byte, little-endian fields
  recomputed explicitly);
* a Python function that can raise becomes `Except DecodeError _`, where
  `DecodeError.InvalidEnumValue` stands for the `ValueError` raised by an
  `Enum` constructor, `DecodeError.MalformedPayload` for `struct.error`
  (buffer size mismatch), and `DecodeError.AttributeError` for the
  `AttributeError` raised by the malformed expression
  `struct.unpack("<BB". message_bytes)` in the `ACT_REQ` branch
  (attribute access on the string literal, a typo for a comma);
* a Python function that can fall through its `match` and return `None`
  returns an `Option`;
* floating point engineering values are modelled over `ℚ`.
-/

set_option autoImplicit false

deriving instance DecidableEq for Except

namespace HybridEngine

/-- `class PacketType(Enum)` of `packet_spec.py`: CONTROL = 0, TELEMETRY = 1. -/
inductive PacketType where
  | CONTROL
  | TELEMETRY
deriving DecidableEq, Repr

/-- `class TelemetryPacketSubType(Enum)`: the ten subtype tags, codes 0–9. -/
inductive TelemetryPacketSubType where
  | TEMPERATURE
  | PRESSURE
  | MASS
  | ARMING_STATE
  | ACT_STATE
  | WARNING
  | ACT_REQ
  | ACT_ACK
  | ARM_REQ
  | ARM_ACK
deriving DecidableEq, Repr

/-- `class ActuatorState(Enum)`: OFF = 0, ON = 1. -/
inductive ActuatorState where
  | OFF
  | ON
deriving DecidableEq, Repr

/-- `class ArmingState(Enum)`: five levels, codes 0–4. -/
inductive ArmingState where
  | ARMED_PAD
  | ARMED_VALVES
  | ARMED_IGNITION
  | ARMED_DISCONNECTED
  | ARMED_LAUNCH
deriving DecidableEq, Repr

/-- `class Warning(Enum)`: HIGH_PRESSURE = 0, HIGH_TEMP = 1. -/
inductive Warning where
  | HIGH_PRESSURE
  | HIGH_TEMP
deriving DecidableEq, Repr

/-- `class ActuationRequestStatus(Enum)`: codes 0–3. -/
inductive ActuationRequestStatus where
  | ACT_OK
  | ACT_DENIED
  | ACT_DNE
  | ACT_INV
deriving DecidableEq, Repr

/-- `class AcknowledgementStatus(Enum)`: codes 0–2. -/
inductive AcknowledgementStatus where
  | ARM_OK
  | ARM_DENIED
  | ARM_INV
deriving DecidableEq, Repr

/-- The numeric code of a `PacketType` member (its Python `Enum` value). -/
def PacketType.toCode : PacketType → Nat
  | .CONTROL => 0
  | .TELEMETRY => 1

/-- `PacketType(code)`: `some` member on codes 0–1, `none` standing for the
`ValueError` the Python `Enum` constructor raises otherwise. -/
def PacketType.ofCode : Nat → Option PacketType
  | 0 => some .CONTROL
  | 1 => some .TELEMETRY
  | _ => none

/-- The numeric code of a `TelemetryPacketSubType` member. -/
def TelemetryPacketSubType.toCode : TelemetryPacketSubType → Nat
  | .TEMPERATURE => 0
  | .PRESSURE => 1
  | .MASS => 2
  | .ARMING_STATE => 3
  | .ACT_STATE => 4
  | .WARNING => 5
  | .ACT_REQ => 6
  | .ACT_ACK => 7
  | .ARM_REQ => 8
  | .ARM_ACK => 9

/-- `TelemetryPacketSubType(code)`: `some` member on codes 0–9, else `none`. -/
def TelemetryPacketSubType.ofCode : Nat → Option TelemetryPacketSubType
  | 0 => some .TEMPERATURE
  | 1 => some .PRESSURE
  | 2 => some .MASS
  | 3 => some .ARMING_STATE
  | 4 => some .ACT_STATE
  | 5 => some .WARNING
  | 6 => some .ACT_REQ
  | 7 => some .ACT_ACK
  | 8 => some .ARM_REQ
  | 9 => some .ARM_ACK
  | _ => none

/-- `ActuatorState(code)`. -/
def ActuatorState.ofCode : Nat → Option ActuatorState
  | 0 => some .OFF
  | 1 => some .ON
  | _ => none

/-- `ArmingState(code)`. -/
def ArmingState.ofCode : Nat → Option ArmingState
  | 0 => some .ARMED_PAD
  | 1 => some .ARMED_VALVES
  | 2 => some .ARMED_IGNITION
  | 3 => some .ARMED_DISCONNECTED
  | 4 => some .ARMED_LAUNCH
  | _ => none

/-- `Warning(code)`. -/
def Warning.ofCode : Nat → Option Warning
  | 0 => some .HIGH_PRESSURE
  | 1 => some .HIGH_TEMP
  | _ => none

/-- `@dataclass class PacketHeader`: a packet type together with a subtype. -/
structure PacketHeader where
  type : PacketType
  sub_type : TelemetryPacketSubType
deriving DecidableEq, Repr

/-- The exceptions the decoding functions of `packet_spec.py` can raise. -/
inductive DecodeError where
  | InvalidEnumValue
  | MalformedPayload
  | AttributeError
deriving DecidableEq, Repr

/-- The runtime shapes `parse_packet_message` and `parse_serial_packet`
actually construct (the tagged union of all message dataclasses).

The control variants mirror the dynamic behaviour of the Python code, not
the dataclass annotations: `ActuationRequest.state` and
`ActuationAcknowledgement.status` hold the raw byte (the code never applies
the enum constructor there), and `ArmingRequest.level` /
`ArmingAcknowledgement.status` hold the unsplit result tuple of
`struct.unpack("<B", ...)`, modelled as a one-element list. -/
inductive Message where
  | ActuationRequest (id : Nat) (state : Nat)
  | ActuationAcknowledgement (id : Nat) (status : Nat)
  | ArmingRequest (level : List Nat)
  | ArmingAcknowledgement (status : List Nat)
  | TemperaturePacket (time_since_power : Nat) (temperature : ℚ) (id : Nat)
  | PressurePacket (time_since_power : Nat) (pressure : ℚ) (id : Nat)
  | MassPacket (time_since_power : Nat) (mass : ℚ) (id : Nat)
  | ArmingStatePacket (time_since_power : Nat) (state : ArmingState)
  | ActuatorStatePacket (time_since_power : Nat) (id : Nat) (state : ActuatorState)
  | WarningPacket (time_since_power : Nat) (type : Warning)
deriving DecidableEq, Repr

/-- Little-endian `u16` from two bytes (`struct` format `H`). -/
def u16LE (b0 b1 : Nat) : Nat := b0 + 256 * b1

/-- Little-endian `u32` from four bytes (`struct` format `I`). -/
def u32LE (b0 b1 b2 b3 : Nat) : Nat :=
  b0 + 256 * b1 + 65536 * b2 + 16777216 * b3

/-- `parse_packet_header(header_bytes)`: unpack two bytes (`struct.error` on
any other length) and apply the two enum constructors. -/
def parse_packet_header (header_bytes : List Nat) :
    Except DecodeError PacketHeader :=
  match header_bytes with
  | [packet_type, packet_sub_type] =>
    match PacketType.ofCode packet_type with
    | none => .error .InvalidEnumValue
    | some t =>
      match TelemetryPacketSubType.ofCode packet_sub_type with
      | none => .error .InvalidEnumValue
      | some s => .ok ⟨t, s⟩
  | _ => .error .MalformedPayload

/-- `packet_message_bytes_length(header)`: the partial lookup table. The
Python `match` covers only the `TELEMETRY` sensor/state subtypes and falls
through (returning `None`) on every other header, CONTROL headers included. -/
def packet_message_bytes_length (header : PacketHeader) : Option Nat :=
  match header.type with
  | .TELEMETRY =>
    match header.sub_type with
    | .TEMPERATURE | .PRESSURE | .MASS => some 9
    | .ACT_STATE => some 6
    | .ARMING_STATE | .WARNING => some 5
    | _ => none
  | .CONTROL => none

/-- `parse_packet_message(header, message_bytes)`.

`Except.ok none` models the Python function falling through its `match`
statements and returning `None`; `Except.ok (some m)` models returning the
message `m`. The `ACT_REQ` branch evaluates
`struct.unpack("<BB". message_bytes)` — attribute access on the format
string — and therefore raises `AttributeError` before looking at the
payload. -/
def parse_packet_message (header : PacketHeader) (message_bytes : List Nat) :
    Except DecodeError (Option Message) :=
  match header.type with
  | .CONTROL =>
    match header.sub_type with
    | .ACT_REQ => .error .AttributeError
    | .ACT_ACK =>
      match message_bytes with
      | [id, status] => .ok (some (.ActuationAcknowledgement id status))
      | _ => .error .MalformedPayload
    | .ARM_REQ =>
      match message_bytes with
      | [level] => .ok (some (.ArmingRequest [level]))
      | _ => .error .MalformedPayload
    | .ARM_ACK =>
      match message_bytes with
      | [status] => .ok (some (.ArmingAcknowledgement [status]))
      | _ => .error .MalformedPayload
    | _ => .ok none
  | .TELEMETRY =>
    match header.sub_type with
    | .TEMPERATURE =>
      match message_bytes with
      | [a0, a1, a2, a3, b0, b1, b2, b3, id] =>
        .ok (some (.TemperaturePacket (u32LE a0 a1 a2 a3)
          ((u32LE b0 b1 b2 b3 : ℚ)) id))
      | _ => .error .MalformedPayload
    | .PRESSURE =>
      match message_bytes with
      | [a0, a1, a2, a3, b0, b1, b2, b3, id] =>
        .ok (some (.PressurePacket (u32LE a0 a1 a2 a3)
          ((u32LE b0 b1 b2 b3 : ℚ)) id))
      | _ => .error .MalformedPayload
    | .MASS =>
      match message_bytes with
      | [a0, a1, a2, a3, b0, b1, b2, b3, id] =>
        .ok (some (.MassPacket (u32LE a0 a1 a2 a3)
          ((u32LE b0 b1 b2 b3 : ℚ)) id))
      | _ => .error .MalformedPayload
    | .ARMING_STATE =>
      match message_bytes with
      | [a0, a1, a2, a3, st] =>
        match ArmingState.ofCode st with
        | some s => .ok (some (.ArmingStatePacket (u32LE a0 a1 a2 a3) s))
        | none => .error .InvalidEnumValue
      | _ => .error .MalformedPayload
    | .ACT_STATE =>
      match message_bytes with
      | [a0, a1, a2, a3, id, st] =>
        match ActuatorState.ofCode st with
        | some s => .ok (some (.ActuatorStatePacket (u32LE a0 a1 a2 a3) id s))
        | none => .error .InvalidEnumValue
      | _ => .error .MalformedPayload
    | .WARNING =>
      match message_bytes with
      | [a0, a1, a2, a3, ty] =>
        match Warning.ofCode ty with
        | some w => .ok (some (.WarningPacket (u32LE a0 a1 a2 a3) w))
        | none => .error .InvalidEnumValue
      | _ => .error .MalformedPayload
    | _ => .ok none

/-- Modelled from the spec: the calibration functions imported from
`data_conversions` (a module of this repository that is not under `src/`).
§4.5 describes each as an opaque, pure, deterministic transform from a raw
`u16` code to an engineering-unit value with no side effects, so they are
carried as abstract function parameters.  `m1` does not appear here because
the source scales it inline with the fixed `/ 1000` divisor. -/
structure Conversions where
  loadCell2Conversion : Nat → ℚ
  pressureConversion : Nat → ℚ
  thermistorConversion : Nat → ℚ
  thermistor2Conversion : Nat → ℚ
  thermocouple3Conversion : Nat → ℚ

/-- Fuel-driven helper for `bitsLE`; the fuel argument only forces
structural termination and any fuel `≥ n` gives the same digits. -/
def bitsLEAux : Nat → Nat → List Bool
  | 0, _ => []
  | _ + 1, 0 => []
  | fuel + 1, n + 1 => decide ((n + 1) % 2 = 1) :: bitsLEAux fuel ((n + 1) / 2)

/-- The binary digits of `n`, least-significant first, with `bitsLE 0 = []`
(so that `(bitsLE n).reverse` is exactly Python's `'{:b}'.format(n)` minus
the special case `'0'` for zero, which the 12-wide zero padding absorbs). -/
def bitsLE (n : Nat) : List Bool := bitsLEAux n n

/-- Python `'{:012b}'.format(v)` as a list of bits, most-significant first:
the binary digits of `v`, left-padded with `0` to a MINIMUM width of 12
(wider values are not truncated — `012` is only a minimum field width). -/
def format012b (v : Nat) : List Bool :=
  List.replicate (12 - (bitsLE v).reverse.length) false ++ (bitsLE v).reverse

/-- `@dataclass class SerialDataPacket` as `parse_serial_packet` fills it:
nine engineering-unit channel values and, in the `status` slot, the
reversed 12-minimum-wide bit string (`'{:012b}'.format(status >> 16)[::-1]`,
a `true` entry standing for the character `'1'`). -/
structure SerialDataPacket where
  m1 : ℚ
  m2 : ℚ
  p1 : ℚ
  p2 : ℚ
  p3 : ℚ
  p4 : ℚ
  t1 : ℚ
  t2 : ℚ
  t3 : ℚ
  status : List Bool
deriving DecidableEq, Repr

/-- The valve-state polarity computation inside the `else` branch of the
explosion loop: default-open valves read the bit inverted. -/
def valveState (default_open_valves : Finset Nat) (index : Nat) (bit : Bool) :
    ActuatorState :=
  if index ∈ default_open_valves then
    if bit = false then .ON else .OFF
  else
    if bit = false then .OFF else .ON

/-- The nine sensor events the `asdict` loop appends, in dataclass field
order `m1, m2, p1, p2, p3, p4, t1, t2, t3`, each stamped with the caller's
timestamp and the 1-based channel index taken from the field name. -/
def sensorEvents (pkt : SerialDataPacket) (timestamp : Nat) :
    List (PacketHeader × Message) :=
  [ (⟨.TELEMETRY, .MASS⟩, .MassPacket timestamp pkt.m1 1),
    (⟨.TELEMETRY, .MASS⟩, .MassPacket timestamp pkt.m2 2),
    (⟨.TELEMETRY, .PRESSURE⟩, .PressurePacket timestamp pkt.p1 1),
    (⟨.TELEMETRY, .PRESSURE⟩, .PressurePacket timestamp pkt.p2 2),
    (⟨.TELEMETRY, .PRESSURE⟩, .PressurePacket timestamp pkt.p3 3),
    (⟨.TELEMETRY, .PRESSURE⟩, .PressurePacket timestamp pkt.p4 4),
    (⟨.TELEMETRY, .TEMPERATURE⟩, .TemperaturePacket timestamp pkt.t1 1),
    (⟨.TELEMETRY, .TEMPERATURE⟩, .TemperaturePacket timestamp pkt.t2 2),
    (⟨.TELEMETRY, .TEMPERATURE⟩, .TemperaturePacket timestamp pkt.t3 3) ]

/-- The `enumerate(val)` loop over the status bit string: one `ACT_STATE`
event per character, in order. -/
def valveEvents (bits : List Bool) (timestamp : Nat)
    (default_open_valves : Finset Nat) : List (PacketHeader × Message) :=
  bits.enum.map fun ib =>
    (⟨.TELEMETRY, .ACT_STATE⟩,
      .ActuatorStatePacket timestamp ib.1 (valveState default_open_valves ib.1 ib.2))

/-- `parse_serial_packet(data, timestamp, default_open_valves)`:
`struct.unpack_from("<HHHHHHHHHI", data, offset=4)` (nine little-endian
`u16` fields then one `u32`, raising `struct.error` when fewer than 26
bytes are available), with the FIRST `u16` bound to `m2` and the SECOND to
`m1`; calibrate each channel; turn `status >> 16` into the reversed
12-minimum-wide bit string; and explode into the event list. -/
def parse_serial_packet (cv : Conversions) (data : List Nat) (timestamp : Nat)
    (default_open_valves : Finset Nat) :
    Except DecodeError (SerialDataPacket × List (PacketHeader × Message)) :=
  if 26 ≤ data.length then
    let g : Nat → Nat := fun i => data.getD i 0
    let m2 := u16LE (g 4) (g 5)
    let m1 := u16LE (g 6) (g 7)
    let p1 := u16LE (g 8) (g 9)
    let p2 := u16LE (g 10) (g 11)
    let p3 := u16LE (g 12) (g 13)
    let p4 := u16LE (g 14) (g 15)
    let t1 := u16LE (g 16) (g 17)
    let t2 := u16LE (g 18) (g 19)
    let t3 := u16LE (g 20) (g 21)
    let status := u32LE (g 22) (g 23) (g 24) (g 25)
    let parsed_packet : SerialDataPacket :=
      { m1 := (m1 : ℚ) / 1000
        m2 := cv.loadCell2Conversion m2
        p1 := cv.pressureConversion p1
        p2 := cv.pressureConversion p2
        p3 := cv.pressureConversion p3
        p4 := cv.pressureConversion p4
        t1 := cv.thermistorConversion t1
        t2 := cv.thermistor2Conversion t2
        t3 := cv.thermocouple3Conversion t3
        status := (format012b (status / 2 ^ 16)).reverse }
    .ok (parsed_packet,
      sensorEvents parsed_packet timestamp ++
        valveEvents parsed_packet.status timestamp default_open_valves)
  else .error .MalformedPayload

/-- Total version of `PacketType.ofCode` on its domain (defaulting off-domain). -/
def PacketType.fromCodeD (c : Nat) : PacketType :=
  (PacketType.ofCode c).getD .CONTROL

/-- Total version of `TelemetryPacketSubType.ofCode` on its domain. -/
def TelemetryPacketSubType.fromCodeD (c : Nat) : TelemetryPacketSubType :=
  (TelemetryPacketSubType.ofCode c).getD .TEMPERATURE

/-- The little-endian `u32` status word of a legacy frame (byte offset 22). -/
def frameStatus (data : List Nat) : Nat :=
  u32LE (data.getD 22 0) (data.getD 23 0) (data.getD 24 0) (data.getD 25 0)

/-- The little-endian byte serialization of a `u32` (inverse of `u32LE` on
values below `2 ^ 32`), used to build payloads in roundtrip statements. -/
def u32leBytes (n : Nat) : List Nat :=
  [n % 256, n / 256 % 256, n / 65536 % 256, n / 16777216 % 256]

/-- Default element handed to `List.getD` when selecting one event out of a
decoded event list (never actually returned by an in-range lookup). -/
def eventDflt : PacketHeader × Message :=
  (⟨.CONTROL, .TEMPERATURE⟩, .ArmingRequest [])

/-- A concrete calibration bundle (identity transforms) used to evaluate the
serial decoder on explicit test frames. -/
def cv0 : Conversions :=
  ⟨fun r => (r : ℚ), fun r => (r : ℚ), fun r => (r : ℚ),
    fun r => (r : ℚ), fun r => (r : ℚ)⟩

/-- The event sequence claimed for the serial explosion, written from the
spec's words: the 9 sensor events in the fixed order `m1, m2, p1, p2, p3,
p4, t1, t2, t3` (with `m1` the SECOND `u16` field scaled by `/ 1000` and
`m2` the FIRST field through `loadCell2Conversion`), followed by the valve
events with ids 0 through 11, valve bit `i` being bit `i` (LSB first) of the
low 12 bits of `status >> 16`. -/
def claimedSerialEvents (cv : Conversions) (data : List Nat) (timestamp : Nat)
    (default_open_valves : Finset Nat) : List (PacketHeader × Message) :=
  let g : Nat → Nat := fun i => data.getD i 0
  [ (⟨.TELEMETRY, .MASS⟩,
      .MassPacket timestamp ((u16LE (g 6) (g 7) : ℚ) / 1000) 1),
    (⟨.TELEMETRY, .MASS⟩,
      .MassPacket timestamp (cv.loadCell2Conversion (u16LE (g 4) (g 5))) 2),
    (⟨.TELEMETRY, .PRESSURE⟩,
      .PressurePacket timestamp (cv.pressureConversion (u16LE (g 8) (g 9))) 1),
    (⟨.TELEMETRY, .PRESSURE⟩,
      .PressurePacket timestamp (cv.pressureConversion (u16LE (g 10) (g 11))) 2),
    (⟨.TELEMETRY, .PRESSURE⟩,
      .PressurePacket timestamp (cv.pressureConversion (u16LE (g 12) (g 13))) 3),
    (⟨.TELEMETRY, .PRESSURE⟩,
      .PressurePacket timestamp (cv.pressureConversion (u16LE (g 14) (g 15))) 4),
    (⟨.TELEMETRY, .TEMPERATURE⟩,
      .TemperaturePacket timestamp (cv.thermistorConversion (u16LE (g 16) (g 17))) 1),
    (⟨.TELEMETRY, .TEMPERATURE⟩,
      .TemperaturePacket timestamp (cv.thermistor2Conversion (u16LE (g 18) (g 19))) 2),
    (⟨.TELEMETRY, .TEMPERATURE⟩,
      .TemperaturePacket timestamp (cv.thermocouple3Conversion (u16LE (g 20) (g 21))) 3) ] ++
  (List.range 12).map fun i =>
    (⟨.TELEMETRY, .ACT_STATE⟩,
      .ActuatorStatePacket timestamp i
        (valveState default_open_valves i ((frameStatus data / 2 ^ 16).testBit i)))

/-! ## Bridge lemmas: the reversed `'{:012b}'` bit string versus `Nat.testBit` -/

/-- Position `i` of the LSB-first digit list is bit `i` of the value. -/
theorem bitsLEAux_getD (fuel : Nat) :
    ∀ n i, n ≤ fuel → (bitsLEAux fuel n).getD i false = n.testBit i := by
  induction fuel with
  | zero =>
    intro n i hn
    interval_cases n
    simp [bitsLEAux]
  | succ fuel ih =>
    intro n i hn
    match n with
    | 0 => simp [bitsLEAux]
    | m + 1 =>
      match i with
      | 0 => simp [bitsLEAux]
      | j + 1 =>
        have h2 : (m + 1) / 2 ≤ fuel := by omega
        calc (bitsLEAux (fuel + 1) (m + 1)).getD (j + 1) false
            = (bitsLEAux fuel ((m + 1) / 2)).getD j false := rfl
          _ = ((m + 1) / 2).testBit j := ih _ _ h2
          _ = (m + 1).testBit (j + 1) := (Nat.testBit_add_one _ _).symm

/-- A value is below `2 ^ (number of its binary digits)`. -/
theorem bitsLEAux_lt_two_pow_length (fuel : Nat) :
    ∀ n, n ≤ fuel → n < 2 ^ (bitsLEAux fuel n).length := by
  induction fuel with
  | zero =>
    intro n hn
    interval_cases n
    simp [bitsLEAux]
  | succ fuel ih =>
    intro n hn
    match n with
    | 0 => simp [bitsLEAux]
    | m + 1 =>
      have h2 : (m + 1) / 2 ≤ fuel := by omega
      have hlt := ih _ h2
      have hpow : 2 ^ ((bitsLEAux fuel ((m + 1) / 2)).length + 1) =
          2 ^ (bitsLEAux fuel ((m + 1) / 2)).length * 2 := Nat.pow_succ ..
      show m + 1 < 2 ^ ((bitsLEAux fuel ((m + 1) / 2)).length + 1)
      omega

/-- Mapping `Nat.testBit 0` over a range gives all-`false`. -/
theorem map_testBit_zero (k : Nat) :
    (List.range k).map ((0 : Nat).testBit ·) = List.replicate k false := by
  refine List.eq_replicate_iff.mpr ⟨by simp, ?_⟩
  intro b hb
  simp only [List.mem_map] at hb
  obtain ⟨i, -, rfl⟩ := hb
  exact Nat.zero_testBit i

/-- Padding the LSB-first digit list of `n < 2 ^ k` with `false` up to
length `k` enumerates the first `k` bits of `n`. -/
theorem bitsLEAux_pad (fuel : Nat) :
    ∀ n k, n ≤ fuel → n < 2 ^ k →
      bitsLEAux fuel n ++ List.replicate (k - (bitsLEAux fuel n).length) false =
        (List.range k).map (n.testBit ·) := by
  induction fuel with
  | zero =>
    intro n k hn _
    interval_cases n
    simp [bitsLEAux, map_testBit_zero]
  | succ fuel ih =>
    intro n k hn hk
    match n with
    | 0 => simp [bitsLEAux, map_testBit_zero]
    | m + 1 =>
      match k with
      | 0 => omega
      | j + 1 =>
        have h2 : (m + 1) / 2 ≤ fuel := by omega
        have hk2 : (m + 1) / 2 < 2 ^ j := by
          have := Nat.pow_succ 2 j
          omega
        have IH := ih ((m + 1) / 2) j h2 hk2
        rw [List.range_succ_eq_map, List.map_cons, List.map_map]
        show decide ((m + 1) % 2 = 1) ::
            (bitsLEAux fuel ((m + 1) / 2) ++
              List.replicate (j + 1 - ((bitsLEAux fuel ((m + 1) / 2)).length + 1)) false) = _
        rw [Nat.succ_sub_succ, IH]
        congr 1
        · simp
        · exact List.map_congr_left fun i _ => (Nat.testBit_add_one (m + 1) i).symm

/-- The status slot of the `SerialDataPacket` — the reversed, 12-minimum-wide
binary string — is the LSB-first digit list padded with `false` up to 12. -/
theorem statusBits_eq (v : Nat) :
    (format012b v).reverse =
      bitsLE v ++ List.replicate (12 - (bitsLE v).length) false := by
  simp [format012b]

/-- For values fitting in 12 bits, the reversed status string is exactly the
12 low bits of the value, LSB first. -/
theorem statusBits_of_lt (v : Nat) (hv : v < 4096) :
    (format012b v).reverse = (List.range 12).map (v.testBit ·) := by
  rw [statusBits_eq]
  exact bitsLEAux_pad v v 12 le_rfl hv

/-- Character `i` of the reversed status string is bit `i` of the value. -/
theorem statusBits_getD (v i : Nat) :
    ((format012b v).reverse).getD i false = v.testBit i := by
  rw [statusBits_eq]
  by_cases h : i < (bitsLE v).length
  · rw [List.getD_eq_getElem?_getD, List.getElem?_append_left h,
      ← List.getD_eq_getElem?_getD]
    exact bitsLEAux_getD v v i le_rfl
  · have hle : (bitsLE v).length ≤ i := le_of_not_lt h
    have h1 : v < 2 ^ (bitsLE v).length := bitsLEAux_lt_two_pow_length v v le_rfl
    have h2 : v < 2 ^ i :=
      lt_of_lt_of_le h1 (Nat.pow_le_pow_right (by norm_num) hle)
    rw [List.getD_eq_getElem?_getD, List.getElem?_append_right hle,
      List.getElem?_replicate, Nat.testBit_lt_two_pow h2]
    split <;> simp

/-- The reversed status string is never shorter than 12 characters. -/
theorem statusBits_length (v : Nat) :
    12 ≤ ((format012b v).reverse).length := by
  rw [statusBits_eq]
  simp only [List.length_append, List.length_replicate]
  omega

/-- Selecting the `i`-th valve event: header `TELEMETRY/ACT_STATE`, id `i`,
state computed from character `i` of the bit string. -/
theorem valveEvents_getD (bits : List Bool) (ts : Nat) (dov : Finset Nat)
    (i : Nat) (h : i < bits.length) (d : PacketHeader × Message) :
    (valveEvents bits ts dov).getD i d =
      (⟨.TELEMETRY, .ACT_STATE⟩,
        .ActuatorStatePacket ts i (valveState dov i (bits.getD i false))) := by
  have h' : i < (valveEvents bits ts dov).length := by
    simpa [valveEvents] using h
  rw [List.getD_eq_getElem?_getD, List.getElem?_eq_getElem h']
  simp [valveEvents, List.enum, List.getElem_enumFrom,
    List.getD_eq_getElem?_getD, List.getElem?_eq_getElem h]

/-- On a 12-bit status value the valve events are exactly one event per bit
index `0–11`, reading bit `i` of the value. -/
theorem valveEvents_of_testBit (v : Nat) (ts : Nat) (dov : Finset Nat)
    (hv : v < 4096) :
    valveEvents ((format012b v).reverse) ts dov =
      (List.range 12).map fun i =>
        (⟨.TELEMETRY, .ACT_STATE⟩,
          .ActuatorStatePacket ts i (valveState dov i (v.testBit i))) := by
  rw [statusBits_of_lt v hv]
  apply List.ext_getElem
  · simp [valveEvents]
  · intro i h1 h2
    simp [valveEvents, List.enum, List.getElem_enumFrom]

/-! ## Claim theorems -/

/-- C2: for every 2-byte input, `parse_packet_header` succeeds exactly on
`type_code ∈ {0,1}` and `subtype_code ∈ {0..9}`, returning the header whose
members carry those codes (so bytes `[0x01, 0x00]` give
`PacketHeader(TELEMETRY, TEMPERATURE)`), and fails with `InvalidEnumValue`
on every out-of-domain code (such as `type_code = 5`). -/
theorem parse_packet_header_domain (t s : Nat) :
    (t < 2 → s < 10 →
      parse_packet_header [t, s] =
          Except.ok ⟨PacketType.fromCodeD t, TelemetryPacketSubType.fromCodeD s⟩ ∧
        (PacketType.fromCodeD t).toCode = t ∧
        (TelemetryPacketSubType.fromCodeD s).toCode = s) ∧
    (2 ≤ t ∨ 10 ≤ s →
      parse_packet_header [t, s] = Except.error DecodeError.InvalidEnumValue) := by
  constructor
  · intro ht hs
    interval_cases t <;> interval_cases s <;> exact ⟨rfl, rfl, rfl⟩
  · rintro (h | h)
    · obtain ⟨k, rfl⟩ : ∃ k, t = k + 2 := ⟨t - 2, by omega⟩
      have h1 : PacketType.ofCode (k + 2) = none := rfl
      simp [parse_packet_header, h1]
    · obtain ⟨k, rfl⟩ : ∃ k, s = k + 10 := ⟨s - 10, by omega⟩
      have h2 : TelemetryPacketSubType.ofCode (k + 10) = none := rfl
      cases hct : PacketType.ofCode t <;> simp [parse_packet_header, hct, h2]

/-- C2 witness: header bytes `[1, 0]` decode to `(TELEMETRY, TEMPERATURE)`
and the invalid type code 5 is rejected. -/
theorem parse_packet_header_domain_witness :
    parse_packet_header [1, 0] =
        Except.ok ⟨PacketType.fromCodeD 1, TelemetryPacketSubType.fromCodeD 0⟩ ∧
      parse_packet_header [5, 0] = Except.error DecodeError.InvalidEnumValue :=
  ⟨((parse_packet_header_domain 1 0).1 (by decide) (by decide)).1,
    (parse_packet_header_domain 5 0).2 (Or.inl (by decide))⟩

/-- C3 counterexample: for the header `(CONTROL, ACT_REQ)` the length
resolver returns `None` — not the claimed value 2, and not an
`UnresolvedLength` failure (the function cannot fail at all). -/
theorem packet_message_bytes_length_control_cex :
    packet_message_bytes_length ⟨.CONTROL, .ACT_REQ⟩ = none ∧
      packet_message_bytes_length ⟨.CONTROL, .ACT_REQ⟩ ≠ some 2 := by
  decide

/-- C3 (amended): the resolver implements only the TELEMETRY rows of the
spec's table (9/6/5) and returns `None` — with no `UnresolvedLength`
failure — on every other header, all CONTROL headers included. -/
theorem packet_message_bytes_length_table (h : PacketHeader) :
    packet_message_bytes_length h =
      if h.type = .TELEMETRY then
        if h.sub_type = .TEMPERATURE ∨ h.sub_type = .PRESSURE ∨ h.sub_type = .MASS then
          some 9
        else if h.sub_type = .ACT_STATE then some 6
        else if h.sub_type = .ARMING_STATE ∨ h.sub_type = .WARNING then some 5
        else none
      else none := by
  obtain ⟨t, s⟩ := h
  cases t <;> cases s <;> decide

/-- C4: the `(CONTROL, ACT_REQ)` branch evaluates the malformed expression
`struct.unpack("<BB". message_bytes)` and raises `AttributeError` on every
payload — it never returns the claimed `ActuationRequest`; evaluated here at
the 2-byte payload `[3, 1]`. -/
theorem parse_packet_message_act_req_crashes :
    parse_packet_message ⟨.CONTROL, .ACT_REQ⟩ [3, 1] =
        Except.error DecodeError.AttributeError ∧
      parse_packet_message ⟨.CONTROL, .ACT_REQ⟩ [3, 1] ≠
        Except.ok (some (Message.ActuationRequest 3 1)) := by
  decide

/-- C5: the control variants never validate their enum bytes — at the
failing input `(CONTROL, ACT_ACK)` with payload `[0, 7]` (status byte 7
outside `{0..3}`) the decoder returns the raw integer 7 inside
`ActuationAcknowledgement` instead of failing with `InvalidEnumValue`. -/
theorem parse_packet_message_act_ack_unvalidated :
    parse_packet_message ⟨.CONTROL, .ACT_ACK⟩ [0, 7] =
        Except.ok (some (Message.ActuationAcknowledgement 0 7)) ∧
      parse_packet_message ⟨.CONTROL, .ACT_ACK⟩ [0, 7] ≠
        Except.error DecodeError.InvalidEnumValue := by
  decide

/-- C6: on a TELEMETRY header with a sensor subtype and the 9-byte payload
`u32 time ∥ u32 value ∥ u8 id` (little endian), the decoder returns the
matching sensor packet carrying exactly those fields. -/
theorem parse_packet_message_sensor_decode (time val id : Nat)
    (htime : time < 2 ^ 32) (hval : val < 2 ^ 32) :
    parse_packet_message ⟨.TELEMETRY, .TEMPERATURE⟩
        (u32leBytes time ++ u32leBytes val ++ [id]) =
        Except.ok (some (.TemperaturePacket time (val : ℚ) id)) ∧
      parse_packet_message ⟨.TELEMETRY, .PRESSURE⟩
        (u32leBytes time ++ u32leBytes val ++ [id]) =
        Except.ok (some (.PressurePacket time (val : ℚ) id)) ∧
      parse_packet_message ⟨.TELEMETRY, .MASS⟩
        (u32leBytes time ++ u32leBytes val ++ [id]) =
        Except.ok (some (.MassPacket time (val : ℚ) id)) := by
  have h1 : u32LE (time % 256) (time / 256 % 256) (time / 65536 % 256)
      (time / 16777216 % 256) = time := by
    simp only [u32LE]
    omega
  have h2 : u32LE (val % 256) (val / 256 % 256) (val / 65536 % 256)
      (val / 16777216 % 256) = val := by
    simp only [u32LE]
    omega
  refine ⟨?_, ?_, ?_⟩ <;>
    simp [parse_packet_message, u32leBytes, h1, h2]

/-- C6 witness: the spec's concrete scenario — a TEMPERATURE payload
encoding `time = 1000, value = 250, id = 2` yields
`TemperaturePacket(1000, 250, 2)`. -/
theorem parse_packet_message_sensor_decode_witness :
    parse_packet_message ⟨.TELEMETRY, .TEMPERATURE⟩
        (u32leBytes 1000 ++ u32leBytes 250 ++ [2]) =
      Except.ok (some (.TemperaturePacket 1000 (250 : ℚ) 2)) :=
  (parse_packet_message_sensor_decode 1000 250 2 (by decide) (by decide)).1

/-- C9: every `(type, sub_type)` combination not matched by a decoding case
(a CONTROL header with a sensor/state subtype, or a TELEMETRY header with a
control subtype) makes `parse_packet_message` fall through its `match` and
return `None` — no message and no error — whatever the payload. -/
theorem parse_packet_message_fallthrough (t : PacketType)
    (s : TelemetryPacketSubType) (b : List Nat)
    (h : (t = .CONTROL ∧
            (s = .TEMPERATURE ∨ s = .PRESSURE ∨ s = .MASS ∨
              s = .ARMING_STATE ∨ s = .ACT_STATE ∨ s = .WARNING)) ∨
         (t = .TELEMETRY ∧
            (s = .ACT_REQ ∨ s = .ACT_ACK ∨ s = .ARM_REQ ∨ s = .ARM_ACK))) :
    parse_packet_message ⟨t, s⟩ b = Except.ok none := by
  rcases h with ⟨rfl, h⟩ | ⟨rfl, h⟩ <;>
    rcases h with rfl | rfl | rfl | rfl | rfl | rfl <;> rfl

/-- C9 witness: a CONTROL header paired with the sensor subtype TEMPERATURE
and an empty payload yields `None` without error. -/
theorem parse_packet_message_fallthrough_witness :
    parse_packet_message ⟨.CONTROL, .TEMPERATURE⟩ [] = Except.ok none :=
  parse_packet_message_fallthrough .CONTROL .TEMPERATURE []
    (Or.inl ⟨rfl, Or.inl rfl⟩)

/-- Indexing past the nine sensor events selects into the valve events. -/
theorem sensorEvents_append_getD (pkt : SerialDataPacket) (ts : Nat)
    (l : List (PacketHeader × Message)) (i : Nat) (d : PacketHeader × Message) :
    (sensorEvents pkt ts ++ l).getD (9 + i) d = l.getD i d := by
  rw [List.getD_eq_getElem?_getD,
    List.getElem?_append_right (by simp [sensorEvents]),
    ← List.getD_eq_getElem?_getD]
  congr 1
  simp [sensorEvents]

/-- C1 counterexample: a 26-byte frame whose status word has upper 16 bits
equal to 4096 (`2 ^ 12`) explodes into 22 events, not 21 — `'{:012b}'` is a
minimum width, so a 13-bit value produces 13 valve events. -/
theorem parse_serial_packet_count_cex :
    (parse_serial_packet cv0 (List.replicate 22 0 ++ [0, 0, 0, 16]) 0 ∅).map
        (fun r => r.2.length) = Except.ok 22 := by
  decide

/-- C1 (amended): whenever the upper 16 bits of the status word fit in 12
bits, the explosion of a long-enough frame is exactly the 21 claimed pairs —
9 sensor events in order `m1, m2, p1..p4, t1..t3` then valve events with ids
0–11, valve bit `i` being bit `i` (LSB first) of `status >> 16`. -/
theorem parse_serial_packet_event_list (cv : Conversions) (data : List Nat)
    (ts : Nat) (dov : Finset Nat) (hlen : 26 ≤ data.length)
    (hstat : frameStatus data / 2 ^ 16 < 4096) :
    (parse_serial_packet cv data ts dov).map Prod.snd =
        Except.ok (claimedSerialEvents cv data ts dov) ∧
      (claimedSerialEvents cv data ts dov).length = 21 := by
  constructor
  · simp only [frameStatus] at hstat
    simp only [parse_serial_packet, if_pos hlen, Except.map,
      valveEvents_of_testBit _ ts dov hstat]
    simp [claimedSerialEvents, sensorEvents, frameStatus]
  · simp [claimedSerialEvents]

/-- C1 witness: the all-zero 26-byte frame yields exactly the claimed
21-event sequence. -/
theorem parse_serial_packet_event_list_witness :
    (parse_serial_packet cv0 (List.replicate 26 0) 0 ∅).map Prod.snd =
        Except.ok (claimedSerialEvents cv0 (List.replicate 26 0) 0 ∅) ∧
      (claimedSerialEvents cv0 (List.replicate 26 0) 0 ∅).length = 21 :=
  parse_serial_packet_event_list cv0 (List.replicate 26 0) 0 ∅
    (by decide) (by decide)

/-- C7: in the serial explosion the event for valve `i` (position `9 + i`)
carries the polarity-inverted state: for a default-open valve a `0` bit
means ON and a `1` bit means OFF, otherwise a `0` bit means OFF and a `1`
bit means ON. -/
theorem parse_serial_packet_valve_polarity (cv : Conversions) (data : List Nat)
    (ts : Nat) (dov : Finset Nat) (hlen : 26 ≤ data.length)
    (i : Nat) (hi : i < 12) :
    (parse_serial_packet cv data ts dov).map (fun r => r.2.getD (9 + i) eventDflt) =
      Except.ok (⟨.TELEMETRY, .ACT_STATE⟩,
        .ActuatorStatePacket ts i
          (if i ∈ dov then
            if (frameStatus data / 2 ^ 16).testBit i = false then .ON else .OFF
          else
            if (frameStatus data / 2 ^ 16).testBit i = false then .OFF else .ON)) := by
  have hbits : i < ((format012b (frameStatus data / 2 ^ 16)).reverse).length :=
    lt_of_lt_of_le hi (statusBits_length _)
  simp only [parse_serial_packet, if_pos hlen, Except.map]
  rw [sensorEvents_append_getD,
    valveEvents_getD _ ts dov i (by simpa [frameStatus] using hbits) eventDflt,
    statusBits_getD]
  simp only [valveState, frameStatus]

/-- C7 witness: on the all-zero frame valve 0 is not default-open and its
bit is 0, so the event at position 9 carries `OFF`. -/
theorem parse_serial_packet_valve_polarity_witness :
    (parse_serial_packet cv0 (List.replicate 26 0) 0 ∅).map
        (fun r => r.2.getD (9 + 0) eventDflt) =
      Except.ok (⟨.TELEMETRY, .ACT_STATE⟩,
        .ActuatorStatePacket 0 0
          (if 0 ∈ (∅ : Finset Nat) then
            if (frameStatus (List.replicate 26 0) / 2 ^ 16).testBit 0 = false then .ON
            else .OFF
          else
            if (frameStatus (List.replicate 26 0) / 2 ^ 16).testBit 0 = false then .OFF
            else .ON)) :=
  parse_serial_packet_valve_polarity cv0 (List.replicate 26 0) 0 ∅
    (by decide) 0 (by decide)

/-- C8 counterexample: on a frame whose status upper 16 bits are
`0b000000000001` with valve 0 (and only valve 0) default-open, the valve-1
event carries `OFF`, not the claimed `ON` — its bit is 0 and it is not
default-open, and a 0 bit on a non-default-open valve means OFF. -/
theorem parse_serial_packet_valve_one_cex :
    (parse_serial_packet cv0 (List.replicate 22 0 ++ [0, 0, 1, 0]) 0 {0}).map
        (fun r => r.2.getD (9 + 1) eventDflt) =
        Except.ok (⟨.TELEMETRY, .ACT_STATE⟩, .ActuatorStatePacket 0 1 .OFF) ∧
      (parse_serial_packet cv0 (List.replicate 22 0 ++ [0, 0, 1, 0]) 0 {0}).map
        (fun r => r.2.getD (9 + 1) eventDflt) ≠
        Except.ok (⟨.TELEMETRY, .ACT_STATE⟩, .ActuatorStatePacket 0 1 .ON) := by
  decide

/-- C8 (amended): on a long-enough frame whose status upper 16 bits equal
`0b000000000001`, decoded with exactly valve 0 default-open, EVERY valve
event carries `OFF` — valve 0 because its bit is 1 with inverted polarity,
and valves 1–11 because their bits are 0 with normal polarity. -/
theorem parse_serial_packet_bit0_frame (cv : Conversions) (data : List Nat)
    (ts : Nat) (hlen : 26 ≤ data.length)
    (hstat : frameStatus data / 2 ^ 16 = 1) :
    (parse_serial_packet cv data ts {0}).map (fun r => (r.2.drop 9).map Prod.snd) =
      Except.ok
        [Message.ActuatorStatePacket ts 0 .OFF, .ActuatorStatePacket ts 1 .OFF,
         .ActuatorStatePacket ts 2 .OFF, .ActuatorStatePacket ts 3 .OFF,
         .ActuatorStatePacket ts 4 .OFF, .ActuatorStatePacket ts 5 .OFF,
         .ActuatorStatePacket ts 6 .OFF, .ActuatorStatePacket ts 7 .OFF,
         .ActuatorStatePacket ts 8 .OFF, .ActuatorStatePacket ts 9 .OFF,
         .ActuatorStatePacket ts 10 .OFF, .ActuatorStatePacket ts 11 .OFF] := by
  simp only [frameStatus] at hstat
  have hb : (format012b 1).reverse =
      [true, false, false, false, false, false,
        false, false, false, false, false, false] := by
    decide
  simp only [parse_serial_packet, if_pos hlen, Except.map, hstat, hb]
  simp [sensorEvents, valveEvents, List.enum, List.enumFrom, valveState]

/-- C8 witness: the concrete frame with status word `0x00010000`. -/
theorem parse_serial_packet_bit0_frame_witness :
    (parse_serial_packet cv0 (List.replicate 22 0 ++ [0, 0, 1, 0]) 0 {0}).map
        (fun r => (r.2.drop 9).map Prod.snd) =
      Except.ok
        [Message.ActuatorStatePacket 0 0 .OFF, .ActuatorStatePacket 0 1 .OFF,
         .ActuatorStatePacket 0 2 .OFF, .ActuatorStatePacket 0 3 .OFF,
         .ActuatorStatePacket 0 4 .OFF, .ActuatorStatePacket 0 5 .OFF,
         .ActuatorStatePacket 0 6 .OFF, .ActuatorStatePacket 0 7 .OFF,
         .ActuatorStatePacket 0 8 .OFF, .ActuatorStatePacket 0 9 .OFF,
         .ActuatorStatePacket 0 10 .OFF, .ActuatorStatePacket 0 11 .OFF] :=
  parse_serial_packet_bit0_frame cv0 (List.replicate 22 0 ++ [0, 0, 1, 0]) 0
    (by decide) (by decide)

/-- C10: the first `u16` field of the frame (byte offset 4) is assigned to
mass channel `m2` and the second (offset 6) to `m1` — the reverse of the
emission order `(m1, m2)` — and only `m1` is scaled by the fixed `/ 1000`
while `m2` goes through `loadCell2Conversion`. -/
theorem parse_serial_packet_mass_swap (cv : Conversions) (data : List Nat)
    (ts : Nat) (dov : Finset Nat) (hlen : 26 ≤ data.length) :
    (parse_serial_packet cv data ts dov).map
        (fun r => (r.1.m1, r.1.m2, r.2.take 2)) =
      Except.ok
        ((u16LE (data.getD 6 0) (data.getD 7 0) : ℚ) / 1000,
         cv.loadCell2Conversion (u16LE (data.getD 4 0) (data.getD 5 0)),
         [(⟨.TELEMETRY, .MASS⟩,
             .MassPacket ts ((u16LE (data.getD 6 0) (data.getD 7 0) : ℚ) / 1000) 1),
          (⟨.TELEMETRY, .MASS⟩,
             .MassPacket ts
               (cv.loadCell2Conversion (u16LE (data.getD 4 0) (data.getD 5 0))) 2)]) := by
  simp [parse_serial_packet, if_pos hlen, Except.map, sensorEvents]

/-- C10 witness: raw fields `m2 = 10000` (offset 4) and `m1 = 1000`
(offset 6) produce `m1 = 1` (divide by 1000) and
`m2 = loadCell2Conversion 10000`, emitted in the order `m1, m2`. -/
theorem parse_serial_packet_mass_swap_witness :
    (parse_serial_packet cv0
        [0, 0, 0, 0, 16, 39, 232, 3, 0, 0, 0, 0, 0, 0, 0, 0, 0, 0,
          0, 0, 0, 0, 0, 0, 0, 0] 0 ∅).map
        (fun r => (r.1.m1, r.1.m2, r.2.take 2)) =
      Except.ok (1, 10000,
        [(⟨.TELEMETRY, .MASS⟩, .MassPacket 0 1 1),
         (⟨.TELEMETRY, .MASS⟩, .MassPacket 0 10000 2)]) := by
  rw [parse_serial_packet_mass_swap cv0
    [0, 0, 0, 0, 16, 39, 232, 3, 0, 0, 0, 0, 0, 0, 0, 0, 0, 0,
      0, 0, 0, 0, 0, 0, 0, 0] 0 ∅ (by decide)]
  norm_num [u16LE, cv0]

end HybridEngine
